import Mathlib

/-!
Shallow embedding of `src/contracts/oraiswap_staking/src/contract.rs`
(oraiswap staking contract entry module).

Addresses (`HumanAddr` / `CanonicalAddr`) are modelled as `Nat`; the host
api's `canonical_address` / `human_address` pair is a bijection and is
modelled as the identity.  `Uint128` is modelled as `Nat` and `Decimal`
(cosmwasm 18-decimal fixed point) as its `Nat` numerator in units of
`10 ^ (-18)`.  `StdResult` is modelled as `Except String`, a failed
transition leaving the storage untouched.  The storage buckets are
modelled as an association list keyed by the canonical asset address.
-/

namespace OraiswapStaking

abbrev Addr := Nat

/-- cosmwasm `Decimal`: 18-decimal fixed point, carried as its atomic
numerator. -/
abbrev Decimal := Nat

/-- `Decimal::percent(n)` = n/100, i.e. `n * 10^16` atomics. -/
def Decimal.percent (n : Nat) : Decimal := n * 10 ^ 16

/-- Modelled from the spec: the ORAI native denomination constant
`ORAI_DENOM` exported by the `oraiswap::asset` module, which is not under
`src/`; the spec calls it the base denomination of the chain. -/
def ORAI_DENOM : String := "orai"

/-- `Config` from `state.rs` as used by `contract.rs`. -/
structure Config where
  owner : Addr
  oraix_token : Addr
  mint_contract : Addr
  oracle_contract : Addr
  oraiswap_factory : Addr
  base_denom : String
  premium_min_update_interval : Nat
  short_reward_bound : Decimal × Decimal
  deriving DecidableEq

/-- `MigrationParams` from `state.rs` as used by `contract.rs`. -/
structure MigrationParams where
  index_snapshot : Decimal
  deprecated_staking_token : Addr
  deriving DecidableEq

/-- `PoolInfo` from `state.rs` as used by `contract.rs`. -/
structure PoolInfo where
  staking_token : Addr
  total_bond_amount : Nat
  total_short_amount : Nat
  reward_index : Decimal
  short_reward_index : Decimal
  pending_reward : Nat
  short_pending_reward : Nat
  premium_rate : Decimal
  short_reward_weight : Decimal
  premium_updated_time : Nat
  migration_params : Option MigrationParams
  deriving DecidableEq

/-- The contract's persistent storage: the singleton config and the pool
bucket keyed by canonical asset address. -/
structure Storage where
  config : Config
  pools : List (Addr × PoolInfo)
  deriving DecidableEq

/-- `read_pool_info`: bucket lookup by asset key. -/
def lookupPool : List (Addr × PoolInfo) → Addr → Option PoolInfo
  | [], _ => none
  | (k, v) :: rest, a => if k = a then some v else lookupPool rest a

/-- `store_pool_info`: bucket save by asset key (replace or append). -/
def storePool : List (Addr × PoolInfo) → Addr → PoolInfo → List (Addr × PoolInfo)
  | [], a, p => [(a, p)]
  | (k, v) :: rest, a, p =>
      if k = a then (a, p) :: rest else (k, v) :: storePool rest a p

/-- `InitMsg` from `oraiswap::staking` as consumed by `init`. -/
structure InitMsg where
  owner : Addr
  oraix_token : Addr
  mint_contract : Addr
  oracle_contract : Addr
  oraiswap_factory : Addr
  base_denom : Option String
  premium_min_update_interval : Nat
  short_reward_bound : Option (Decimal × Decimal)
  deriving DecidableEq

/-- `init` (contract.rs lines 21-40): stores the config built from the
message, defaulting `base_denom` to `ORAI_DENOM` and `short_reward_bound`
to `(7%, 40%)`.  Returns the stored config. -/
def init (msg : InitMsg) : Config :=
  { owner := msg.owner
    oraix_token := msg.oraix_token
    mint_contract := msg.mint_contract
    oracle_contract := msg.oracle_contract
    oraiswap_factory := msg.oraiswap_factory
    base_denom := msg.base_denom.getD ORAI_DENOM
    premium_min_update_interval := msg.premium_min_update_interval
    short_reward_bound :=
      msg.short_reward_bound.getD (Decimal.percent 7, Decimal.percent 40) }

/-- `update_config` (contract.rs lines 159-190): owner-only partial update
of `owner`, `premium_min_update_interval`, `short_reward_bound`. -/
def update_config (s : Storage) (sender : Addr) (owner : Option Addr)
    (premium_min_update_interval : Option Nat)
    (short_reward_bound : Option (Decimal × Decimal)) : Except String Storage :=
  let config := s.config
  if sender ≠ config.owner then Except.error "unauthorized"
  else
    let config := match owner with
      | some o => { config with owner := o }
      | none => config
    let config := match premium_min_update_interval with
      | some i => { config with premium_min_update_interval := i }
      | none => config
    let config := match short_reward_bound with
      | some b => { config with short_reward_bound := b }
      | none => config
    Except.ok { s with config := config }

/-- The all-zero pool record stored by `register_asset`
(contract.rs lines 209-225). -/
def initialPool (staking_token : Addr) : PoolInfo :=
  { staking_token := staking_token
    total_bond_amount := 0
    total_short_amount := 0
    reward_index := 0
    short_reward_index := 0
    pending_reward := 0
    short_pending_reward := 0
    premium_rate := 0
    short_reward_weight := 0
    premium_updated_time := 0
    migration_params := none }

/-- `register_asset` (contract.rs lines 192-235): owner-only; fails if the
asset already has a pool record, otherwise stores the all-zero record. -/
def register_asset (s : Storage) (sender asset_token staking_token : Addr) :
    Except String Storage :=
  if s.config.owner ≠ sender then Except.error "unauthorized"
  else if (lookupPool s.pools asset_token).isSome then
    Except.error "Asset was already registered"
  else
    Except.ok { s with pools := storePool s.pools asset_token (initialPool staking_token) }

/-- The pool record written by a successful `deprecate_staking_token`:
zero `total_bond_amount`, `migration_params` snapshotting the reward index
and old staking token, and the staking token swapped to the new one. -/
def migratedPool (p : PoolInfo) (new_staking_token : Addr) : PoolInfo :=
  { p with
    total_bond_amount := 0
    migration_params := some
      { index_snapshot := p.reward_index
        deprecated_staking_token := p.staking_token }
    staking_token := new_staking_token }

/-- `deprecate_staking_token` (contract.rs lines 237-282): owner-only;
fails if `migration_params` is already set, otherwise snapshots the
reward index and old token, zeroes `total_bond_amount` and swaps the
staking token.  (The message of a failing `read_pool_info` comes from
`state.rs`, absent from `src/`; no claim depends on its text.) -/
def deprecate_staking_token (s : Storage) (sender asset_token new_staking_token : Addr) :
    Except String Storage :=
  if s.config.owner ≠ sender then Except.error "unauthorized"
  else
    match lookupPool s.pools asset_token with
    | none => Except.error "no pool info stored"
    | some pool_info =>
      if pool_info.migration_params.isSome then
        Except.error "This asset LP token has already been migrated"
      else
        Except.ok
          { s with pools := storePool s.pools asset_token (migratedPool pool_info new_staking_token) }

/-- The storage after running `deprecate_staking_token` under the host's
atomic-rollback rule: a failed transition leaves storage as it was. -/
def deprecateExec (s : Storage) (sender asset_token new_staking_token : Addr) : Storage :=
  match deprecate_staking_token s sender asset_token new_staking_token with
  | Except.ok s2 => s2
  | Except.error _ => s

/-- `Cw20HookMsg` from `oraiswap::staking` as matched by `receive_cw20`. -/
inductive Cw20HookMsg where
  | Bond (asset_token : Addr)
  | DepositReward (rewards : List (Addr × Nat))
  deriving DecidableEq

/-- The downstream call `receive_cw20` dispatches to after its own checks
pass: `bond` (staking.rs) or `deposit_reward` (rewards.rs), both outside
`src/`; the claims about `receive_cw20` concern only which call is made
with which arguments. -/
inductive HookAction where
  | bond (staker asset_token : Addr) (amount : Nat)
  | depositReward (rewards : List (Addr × Nat)) (rewards_amount : Nat)
  deriving DecidableEq

/-- The `rewards_amount` accumulation loop in `receive_cw20`
(contract.rs lines 144-147). -/
def sumRewards (rewards : List (Addr × Nat)) : Nat :=
  rewards.foldl (fun acc r => acc + r.2) 0

/-- `receive_cw20` (contract.rs lines 106-157).  `sender` is the token
contract delivering the hook (`info.sender`), `cw20_sender` the original
token sender, `amount` the transferred cw20 amount; `none` for the hook
message models an absent or unparsable payload. -/
def receive_cw20 (s : Storage) (sender cw20_sender : Addr) (amount : Nat)
    (msg : Option Cw20HookMsg) : Except String HookAction :=
  match msg with
  | some (Cw20HookMsg.Bond asset_token) =>
    match lookupPool s.pools asset_token with
    | none => Except.error "no pool info stored"
    | some pool_info =>
      if pool_info.staking_token ≠ sender then
        match pool_info.migration_params with
        | some params =>
          if params.deprecated_staking_token = sender then
            Except.error
              ("The staking token for this asset has been migrated to " ++
                Nat.repr pool_info.staking_token)
          else Except.error "unauthorized"
        | none => Except.error "unauthorized"
      else Except.ok (HookAction.bond cw20_sender asset_token amount)
  | some (Cw20HookMsg.DepositReward rewards) =>
    if s.config.oraix_token ≠ sender then Except.error "unauthorized"
    else
      let rewards_amount := sumRewards rewards
      if rewards_amount ≠ amount then Except.error "rewards amount miss matched"
      else Except.ok (HookAction.depositReward rewards rewards_amount)
  | none => Except.error "invalid cw20 hook message"

/-- Modelled from the spec: `migrate_pool_infos` (migration.rs, absent
from `src/`) is the one-time structural fix-up over all stored pool
records run by the `migrate` upgrade hook; it converts the stored record
format and does not change the field values modelled here, so on this
model it is the identity. -/
def migrate_pool_infos (s : Storage) : Storage := s

/-- `migrate` (contract.rs lines 337-361): runs `migrate_pool_infos`,
then calls `deprecate_staking_token` with the sender identity set to the
configured owner; the actual invoker (`_info`) is ignored. -/
def migrate (s : Storage) (_sender asset_token_to_deprecate new_staking_token : Addr) :
    Except String Storage :=
  let s1 := migrate_pool_infos s
  deprecate_staking_token s1 s1.config.owner asset_token_to_deprecate new_staking_token

/-- The operations of the contract entry module named by the
index-monotonicity claim. -/
inductive EntryOp where
  | updateConfigOp (owner : Option Addr) (premium_min_update_interval : Option Nat)
      (short_reward_bound : Option (Decimal × Decimal))
  | registerAssetOp (asset_token staking_token : Addr)
  | deprecateOp (asset_token new_staking_token : Addr)
  | migrateOp (asset_token new_staking_token : Addr)
  deriving DecidableEq

/-- Dispatch of an `EntryOp` to the corresponding contract function. -/
def applyEntry (s : Storage) (sender : Addr) : EntryOp → Except String Storage
  | EntryOp.updateConfigOp o i b => update_config s sender o i b
  | EntryOp.registerAssetOp a t => register_asset s sender a t
  | EntryOp.deprecateOp a n => deprecate_staking_token s sender a n
  | EntryOp.migrateOp a n => migrate s sender a n

/-! Concrete states used to instantiate the theorems. -/

/-- A concrete config: owner 0, reward token 10. -/
def cfgA : Config :=
  { owner := 0
    oraix_token := 10
    mint_contract := 11
    oracle_contract := 12
    oraiswap_factory := 13
    base_denom := "orai"
    premium_min_update_interval := 100
    short_reward_bound := (Decimal.percent 7, Decimal.percent 40) }

/-- A fresh (never-migrated) pool with staking token 5. -/
def poolFresh : PoolInfo := initialPool 5

/-- A migrated pool: current staking token 6, deprecated token 7. -/
def poolMigrated : PoolInfo :=
  { initialPool 6 with
    migration_params := some { index_snapshot := 0, deprecated_staking_token := 7 } }

/-- A pool migrated to its own old token: current staking token 5 and
deprecated staking token 5 coincide. -/
def poolSelfMigrated : PoolInfo :=
  { initialPool 5 with
    migration_params := some { index_snapshot := 0, deprecated_staking_token := 5 } }

/-- Storage with asset 1 registered under staking token 5. -/
def stA : Storage := { config := cfgA, pools := [(1, poolFresh)] }

/-- Storage with asset 1 already migrated (current token 6, old token 7). -/
def stMig : Storage := { config := cfgA, pools := [(1, poolMigrated)] }

/-- Storage with asset 1 migrated to its own old token 5. -/
def stSelf : Storage := { config := cfgA, pools := [(1, poolSelfMigrated)] }

/-- Storage with no registered assets. -/
def stEmpty : Storage := { config := cfgA, pools := [] }

/-- `stA` after deprecating asset 1 to staking token 8. -/
def stAAfter : Storage := { config := cfgA, pools := [(1, migratedPool poolFresh 8)] }

/-- `stEmpty` after registering asset 1 under staking token 2. -/
def stReg : Storage := { config := cfgA, pools := [(1, initialPool 2)] }

/-- A concrete init message omitting both optional fields. -/
def wInitMsg : InitMsg :=
  { owner := 0
    oraix_token := 10
    mint_contract := 11
    oracle_contract := 12
    oraiswap_factory := 13
    base_denom := none
    premium_min_update_interval := 100
    short_reward_bound := none }

/-! Helper lemmas about the storage bucket. -/

theorem lookupPool_storePool_self (ps : List (Addr × PoolInfo)) (a : Addr) (p : PoolInfo) :
    lookupPool (storePool ps a p) a = some p := by
  induction ps with
  | nil => simp [storePool, lookupPool]
  | cons hd tl ih =>
    by_cases h : hd.1 = a
    · simp [storePool, lookupPool, h]
    · simp [storePool, lookupPool, h, ih]

theorem lookupPool_storePool_ne (ps : List (Addr × PoolInfo)) (a b : Addr) (p : PoolInfo)
    (hne : b ≠ a) : lookupPool (storePool ps a p) b = lookupPool ps b := by
  induction ps with
  | nil => simp [storePool, lookupPool, Ne.symm hne]
  | cons hd tl ih =>
    obtain ⟨k, v⟩ := hd
    by_cases h : k = a
    · subst h
      simp [storePool, lookupPool, Ne.symm hne]
    · simp [storePool, lookupPool, h, ih]

/-- Success shape of `deprecate_staking_token`: an `ok` result can only
come from an owner call on an unmigrated pool, and the new storage is the
old one with the migrated pool record written back. -/
theorem deprecate_ok_inv {s : Storage} {sender asset_token new_staking_token : Addr}
    {s2 : Storage}
    (h : deprecate_staking_token s sender asset_token new_staking_token = Except.ok s2) :
    sender = s.config.owner ∧
    ∃ p, lookupPool s.pools asset_token = some p ∧ p.migration_params = none ∧
      s2 = { s with pools := storePool s.pools asset_token (migratedPool p new_staking_token) } := by
  unfold deprecate_staking_token at h
  split at h
  · simp at h
  · next hown =>
    split at h
    · simp at h
    · next p heq =>
      split at h
      · simp at h
      · next hmig =>
        cases h
        exact ⟨(not_ne_iff.mp hown).symm, p, heq,
          Option.not_isSome_iff_eq_none.mp hmig, rfl⟩

/-- An owner call of `deprecate_staking_token` on a registered, unmigrated
pool succeeds and writes back the migrated pool record. -/
theorem deprecate_owner_ok (s : Storage) (asset_token new_staking_token : Addr)
    (p : PoolInfo) (hp : lookupPool s.pools asset_token = some p)
    (hmig : p.migration_params = none) :
    deprecate_staking_token s s.config.owner asset_token new_staking_token =
      Except.ok { s with pools := storePool s.pools asset_token (migratedPool p new_staking_token) } := by
  unfold deprecate_staking_token
  rw [if_neg (by simp), hp]
  simp [hmig]

/-- C1: For every registered asset whose pool has no active migration, a
successful `deprecate_staking_token` call by the owner sets
`migration_params` to exactly the snapshot of the pool's `reward_index`
and old `staking_token`, resets `total_bond_amount` to zero, and replaces
the pool's `staking_token` with the given new token. -/
theorem deprecate_success_sets_migration (s : Storage)
    (asset_token new_staking_token : Addr) (p : PoolInfo)
    (hp : lookupPool s.pools asset_token = some p)
    (hmig : p.migration_params = none) :
    ∃ s2 p2, deprecate_staking_token s s.config.owner asset_token new_staking_token =
        Except.ok s2 ∧
      lookupPool s2.pools asset_token = some p2 ∧
      p2.migration_params = some
        { index_snapshot := p.reward_index, deprecated_staking_token := p.staking_token } ∧
      p2.total_bond_amount = 0 ∧
      p2.staking_token = new_staking_token := by
  exact ⟨_, migratedPool p new_staking_token,
    deprecate_owner_ok s asset_token new_staking_token p hp hmig,
    lookupPool_storePool_self _ _ _, rfl, rfl, rfl⟩

/-- Witness for C1 at a concrete state: deprecating asset 1 (fresh pool,
staking token 5) to token 8. -/
theorem deprecate_success_sets_migration_witness :
    ∃ s2 p2, deprecate_staking_token stA stA.config.owner 1 8 = Except.ok s2 ∧
      lookupPool s2.pools 1 = some p2 ∧
      p2.migration_params = some
        { index_snapshot := poolFresh.reward_index,
          deprecated_staking_token := poolFresh.staking_token } ∧
      p2.total_bond_amount = 0 ∧
      p2.staking_token = 8 :=
  deprecate_success_sets_migration stA 1 8 poolFresh rfl rfl

/-- C2: a second `deprecate_staking_token` call (by the owner) on an
already-migrated asset fails with the already-migrated error and, under
the host's atomic rollback, leaves the storage — hence the pool record —
exactly as it was. -/
theorem deprecate_already_migrated (s : Storage) (asset_token new_staking_token : Addr)
    (p : PoolInfo) (mp : MigrationParams)
    (hp : lookupPool s.pools asset_token = some p)
    (hmp : p.migration_params = some mp) :
    deprecate_staking_token s s.config.owner asset_token new_staking_token =
      Except.error "This asset LP token has already been migrated" ∧
    deprecateExec s s.config.owner asset_token new_staking_token = s := by
  have herr : deprecate_staking_token s s.config.owner asset_token new_staking_token =
      Except.error "This asset LP token has already been migrated" := by
    unfold deprecate_staking_token
    rw [if_neg (by simp), hp]
    simp [hmp]
  exact ⟨herr, by unfold deprecateExec; rw [herr]⟩

/-- Witness for C2 at a concrete state: asset 1 already migrated. -/
theorem deprecate_already_migrated_witness :
    deprecate_staking_token stMig stMig.config.owner 1 8 =
      Except.error "This asset LP token has already been migrated" ∧
    deprecateExec stMig stMig.config.owner 1 8 = stMig :=
  deprecate_already_migrated stMig 1 8 poolMigrated
    { index_snapshot := 0, deprecated_staking_token := 7 } rfl rfl

/-- C6: a successful `deprecate_staking_token` leaves the pool's
short-side and premium fields — and `pending_reward` and `reward_index` —
unchanged. -/
theorem deprecate_preserves_short_side (s : Storage)
    (sender asset_token new_staking_token : Addr) (p : PoolInfo) (s2 : Storage)
    (h : deprecate_staking_token s sender asset_token new_staking_token = Except.ok s2)
    (hp : lookupPool s.pools asset_token = some p) :
    ∃ p2, lookupPool s2.pools asset_token = some p2 ∧
      p2.total_short_amount = p.total_short_amount ∧
      p2.short_reward_index = p.short_reward_index ∧
      p2.short_pending_reward = p.short_pending_reward ∧
      p2.short_reward_weight = p.short_reward_weight ∧
      p2.premium_rate = p.premium_rate ∧
      p2.premium_updated_time = p.premium_updated_time ∧
      p2.pending_reward = p.pending_reward ∧
      p2.reward_index = p.reward_index := by
  obtain ⟨-, q, hq, -, rfl⟩ := deprecate_ok_inv h
  rw [hp] at hq
  cases hq
  exact ⟨migratedPool p new_staking_token, lookupPool_storePool_self _ _ _,
    rfl, rfl, rfl, rfl, rfl, rfl, rfl, rfl⟩

/-- Witness for C6 at a concrete state: the successful deprecation of
asset 1 in `stA` to token 8 preserves all short-side and premium fields. -/
theorem deprecate_preserves_short_side_witness :
    ∃ p2, lookupPool stAAfter.pools 1 = some p2 ∧
      p2.total_short_amount = poolFresh.total_short_amount ∧
      p2.short_reward_index = poolFresh.short_reward_index ∧
      p2.short_pending_reward = poolFresh.short_pending_reward ∧
      p2.short_reward_weight = poolFresh.short_reward_weight ∧
      p2.premium_rate = poolFresh.premium_rate ∧
      p2.premium_updated_time = poolFresh.premium_updated_time ∧
      p2.pending_reward = poolFresh.pending_reward ∧
      p2.reward_index = poolFresh.reward_index :=
  deprecate_preserves_short_side stA 0 1 8 poolFresh stAAfter rfl rfl

/-- A successful `update_config` leaves the pool bucket unchanged. -/
theorem update_config_ok_pools {s : Storage} {sender : Addr} {o : Option Addr}
    {i : Option Nat} {bd : Option (Decimal × Decimal)} {s2 : Storage}
    (h : update_config s sender o i bd = Except.ok s2) : s2.pools = s.pools := by
  cases o <;> cases i <;> cases bd <;>
    (simp only [update_config] at h; split at h <;> cases h <;> rfl)

/-- C3: `register_asset` initializes both reward indices to zero, and no
operation of the contract entry module (`update_config`,
`deprecate_staking_token`, `register_asset`, `migrate`) ever lowers
`reward_index` or `short_reward_index` of any pool. -/
theorem entry_index_monotone (s : Storage) (sender : Addr) (op : EntryOp) (s2 : Storage)
    (h : applyEntry s sender op = Except.ok s2) :
    (∀ a t, op = EntryOp.registerAssetOp a t →
        ∃ q, lookupPool s2.pools a = some q ∧
          q.reward_index = 0 ∧ q.short_reward_index = 0) ∧
    (∀ b p p2, lookupPool s.pools b = some p → lookupPool s2.pools b = some p2 →
        p.reward_index ≤ p2.reward_index ∧ p.short_reward_index ≤ p2.short_reward_index) := by
  cases op with
  | updateConfigOp o i bd =>
    have h2 : update_config s sender o i bd = Except.ok s2 := h
    have hpools : s2.pools = s.pools := update_config_ok_pools h2
    refine ⟨fun a t heq => EntryOp.noConfusion heq, fun b p p2 hp hp2 => ?_⟩
    rw [hpools, hp] at hp2
    cases hp2
    exact ⟨le_refl _, le_refl _⟩
  | registerAssetOp a t =>
    have h2 : register_asset s sender a t = Except.ok s2 := h
    unfold register_asset at h2
    split at h2
    · simp at h2
    · split at h2
      · simp at h2
      · next hnone =>
        cases h2
        have hn : lookupPool s.pools a = none := by
          simpa using hnone
        constructor
        · intro a2 t2 heq
          injection heq with h1 h2
          subst h1
          subst h2
          exact ⟨initialPool t, lookupPool_storePool_self _ _ _, rfl, rfl⟩
        · intro b p p2 hp hp2
          by_cases hb : b = a
          · subst hb
            rw [hn] at hp
            cases hp
          · rw [lookupPool_storePool_ne _ _ _ _ hb, hp] at hp2
            cases hp2
            exact ⟨le_refl _, le_refl _⟩
  | deprecateOp a n =>
    obtain ⟨-, q, hq, -, rfl⟩ := deprecate_ok_inv h
    refine ⟨fun a2 t2 heq => EntryOp.noConfusion heq, fun b p p2 hp hp2 => ?_⟩
    by_cases hb : b = a
    · subst hb
      rw [hp] at hq
      cases hq
      rw [lookupPool_storePool_self] at hp2
      cases hp2
      exact ⟨le_refl _, le_refl _⟩
    · rw [lookupPool_storePool_ne _ _ _ _ hb, hp] at hp2
      cases hp2
      exact ⟨le_refl _, le_refl _⟩
  | migrateOp a n =>
    have h2 : deprecate_staking_token s s.config.owner a n = Except.ok s2 := h
    obtain ⟨-, q, hq, -, rfl⟩ := deprecate_ok_inv h2
    refine ⟨fun a2 t2 heq => EntryOp.noConfusion heq, fun b p p2 hp hp2 => ?_⟩
    by_cases hb : b = a
    · subst hb
      rw [hp] at hq
      cases hq
      rw [lookupPool_storePool_self] at hp2
      cases hp2
      exact ⟨le_refl _, le_refl _⟩
    · rw [lookupPool_storePool_ne _ _ _ _ hb, hp] at hp2
      cases hp2
      exact ⟨le_refl _, le_refl _⟩

/-- Witness for C3 at a concrete transition: registering asset 1 on the
empty storage. -/
theorem entry_index_monotone_witness :
    (∀ a t, EntryOp.registerAssetOp 1 2 = EntryOp.registerAssetOp a t →
        ∃ q, lookupPool stReg.pools a = some q ∧
          q.reward_index = 0 ∧ q.short_reward_index = 0) ∧
    (∀ b p p2, lookupPool stEmpty.pools b = some p → lookupPool stReg.pools b = some p2 →
        p.reward_index ≤ p2.reward_index ∧ p.short_reward_index ≤ p2.short_reward_index) :=
  entry_index_monotone stEmpty 0 (EntryOp.registerAssetOp 1 2) stReg rfl

/-- Counterexample to C7 as stated: with asset 1 registered, a call by
the non-owner sender 99 fails with "unauthorized" — not with the
already-registered error — because the owner check precedes the
registration check. -/
theorem register_asset_counterexample :
    (lookupPool stA.pools 1).isSome = true ∧
    register_asset stA 99 1 2 = Except.error "unauthorized" ∧
    "unauthorized" ≠ "Asset was already registered" :=
  ⟨rfl, rfl, by decide⟩

/-- C7 (amended): when called by the owner, `register_asset` fails with
the already-registered error whenever a pool record exists, and otherwise
creates exactly one all-zero pool record with no `migration_params`,
leaving every other asset's record unchanged. -/
theorem register_asset_by_owner (s : Storage) (asset_token staking_token : Addr) :
    (∀ p, lookupPool s.pools asset_token = some p →
      register_asset s s.config.owner asset_token staking_token =
        Except.error "Asset was already registered") ∧
    (lookupPool s.pools asset_token = none →
      ∃ s2 p2, register_asset s s.config.owner asset_token staking_token = Except.ok s2 ∧
        lookupPool s2.pools asset_token = some p2 ∧
        p2.staking_token = staking_token ∧
        p2.total_bond_amount = 0 ∧ p2.total_short_amount = 0 ∧
        p2.reward_index = 0 ∧ p2.short_reward_index = 0 ∧
        p2.pending_reward = 0 ∧ p2.short_pending_reward = 0 ∧
        p2.premium_rate = 0 ∧ p2.short_reward_weight = 0 ∧
        p2.premium_updated_time = 0 ∧ p2.migration_params = none ∧
        (∀ b, b ≠ asset_token → lookupPool s2.pools b = lookupPool s.pools b)) := by
  constructor
  · intro p hp
    unfold register_asset
    rw [if_neg (by simp), if_pos (by rw [hp]; rfl)]
  · intro hn
    have hok : register_asset s s.config.owner asset_token staking_token =
        Except.ok { s with pools := storePool s.pools asset_token (initialPool staking_token) } := by
      unfold register_asset
      rw [if_neg (by simp), if_neg (by rw [hn]; simp)]
    exact ⟨_, initialPool staking_token, hok, lookupPool_storePool_self _ _ _,
      rfl, rfl, rfl, rfl, rfl, rfl, rfl, rfl, rfl, rfl, rfl,
      fun b hb => lookupPool_storePool_ne _ _ _ _ hb⟩

/-- Witness for C7 (amended) at a concrete state: registering asset 1
under staking token 2 on the empty storage. -/
theorem register_asset_by_owner_witness :
    ∃ s2 p2, register_asset stEmpty stEmpty.config.owner 1 2 = Except.ok s2 ∧
      lookupPool s2.pools 1 = some p2 ∧
      p2.staking_token = 2 ∧
      p2.total_bond_amount = 0 ∧ p2.total_short_amount = 0 ∧
      p2.reward_index = 0 ∧ p2.short_reward_index = 0 ∧
      p2.pending_reward = 0 ∧ p2.short_pending_reward = 0 ∧
      p2.premium_rate = 0 ∧ p2.short_reward_weight = 0 ∧
      p2.premium_updated_time = 0 ∧ p2.migration_params = none ∧
      (∀ b, b ≠ 1 → lookupPool s2.pools b = lookupPool stEmpty.pools b) :=
  (register_asset_by_owner stEmpty 1 2).2 rfl

/-- An owner call of `update_config` succeeds and stores the config with
each optional argument folded in. -/
theorem update_config_owner_ok (s : Storage) (o : Option Addr) (i : Option Nat)
    (bd : Option (Decimal × Decimal)) :
    update_config s s.config.owner o i bd = Except.ok
      { s with config :=
        { s.config with
            owner := o.getD s.config.owner
            premium_min_update_interval := i.getD s.config.premium_min_update_interval
            short_reward_bound := bd.getD s.config.short_reward_bound } } := by
  have hcond : ¬ (s.config.owner ≠ s.config.owner) := by simp
  cases o <;> cases i <;> cases bd <;>
    (simp only [update_config]; rw [if_neg hcond]; try rfl)

/-- C8: `update_config` fails with "unauthorized" for every non-owner
sender; on an owner call it replaces `owner`,
`premium_min_update_interval` and `short_reward_bound` exactly when the
corresponding optional argument is supplied, and keeps every other config
field (and the pool bucket) unchanged. -/
theorem update_config_selective (s : Storage) (sender : Addr) (o : Option Addr)
    (i : Option Nat) (bd : Option (Decimal × Decimal)) :
    (sender ≠ s.config.owner →
      update_config s sender o i bd = Except.error "unauthorized") ∧
    (sender = s.config.owner →
      ∃ s2, update_config s sender o i bd = Except.ok s2 ∧
        s2.config.owner = o.getD s.config.owner ∧
        s2.config.premium_min_update_interval = i.getD s.config.premium_min_update_interval ∧
        s2.config.short_reward_bound = bd.getD s.config.short_reward_bound ∧
        s2.config.oraix_token = s.config.oraix_token ∧
        s2.config.mint_contract = s.config.mint_contract ∧
        s2.config.oracle_contract = s.config.oracle_contract ∧
        s2.config.oraiswap_factory = s.config.oraiswap_factory ∧
        s2.config.base_denom = s.config.base_denom ∧
        s2.pools = s.pools) := by
  constructor
  · intro hne
    cases o <;> cases i <;> cases bd <;>
      (simp only [update_config]; rw [if_pos hne])
  · intro heq
    subst heq
    exact ⟨_, update_config_owner_ok s o i bd,
      rfl, rfl, rfl, rfl, rfl, rfl, rfl, rfl, rfl⟩

/-- Witness for C8 at a concrete state: the owner updates `owner` and
`short_reward_bound` while omitting `premium_min_update_interval`. -/
theorem update_config_selective_witness :
    ∃ s2, update_config stA 0 (some 42) none (some (1, 2)) = Except.ok s2 ∧
      s2.config.owner = (some 42).getD stA.config.owner ∧
      s2.config.premium_min_update_interval =
        (none : Option Nat).getD stA.config.premium_min_update_interval ∧
      s2.config.short_reward_bound =
        (some ((1 : Decimal), (2 : Decimal))).getD stA.config.short_reward_bound ∧
      s2.config.oraix_token = stA.config.oraix_token ∧
      s2.config.mint_contract = stA.config.mint_contract ∧
      s2.config.oracle_contract = stA.config.oracle_contract ∧
      s2.config.oraiswap_factory = stA.config.oraiswap_factory ∧
      s2.config.base_denom = stA.config.base_denom ∧
      s2.pools = stA.pools :=
  (update_config_selective stA 0 (some 42) none (some (1, 2))).2 rfl

/-- Counterexample to C4 as stated: `deprecate_staking_token` does not
require the new token to differ from the old one, so the contract itself
produces a pool whose `deprecated_staking_token` equals its current
`staking_token` (here token 5 for asset 1); a bond delivered by that
token then passes the gate and dispatches to `bond` instead of failing. -/
theorem receive_bond_counterexample :
    deprecate_staking_token stA 0 1 5 = Except.ok stSelf ∧
    (stSelf.pools = [(1, poolSelfMigrated)] ∧
      poolSelfMigrated.migration_params =
        some { index_snapshot := 0, deprecated_staking_token := 5 }) ∧
    receive_cw20 stSelf 5 9 100 (some (Cw20HookMsg.Bond 1)) =
      Except.ok (HookAction.bond 9 1 100) :=
  ⟨rfl, ⟨rfl, rfl⟩, rfl⟩

/-- C4 (amended): for a bond delivered through the cw20 receive hook on a
pool with `migration_params` set, when the sending token differs from the
pool's current staking token, the call fails with the redirect message
naming the current token if the sender equals the recorded
`deprecated_staking_token`, and with "unauthorized" otherwise. -/
theorem receive_bond_migrated (s : Storage) (asset_token : Addr) (p : PoolInfo)
    (mp : MigrationParams) (sender cw20_sender : Addr) (amount : Nat)
    (hp : lookupPool s.pools asset_token = some p)
    (hmp : p.migration_params = some mp)
    (hne : sender ≠ p.staking_token) :
    (sender = mp.deprecated_staking_token →
      receive_cw20 s sender cw20_sender amount (some (Cw20HookMsg.Bond asset_token)) =
        Except.error
          ("The staking token for this asset has been migrated to " ++
            Nat.repr p.staking_token)) ∧
    (sender ≠ mp.deprecated_staking_token →
      receive_cw20 s sender cw20_sender amount (some (Cw20HookMsg.Bond asset_token)) =
        Except.error "unauthorized") := by
  constructor
  · intro hdep
    simp only [receive_cw20, hp]
    rw [if_pos (Ne.symm hne)]
    simp only [hmp]
    rw [if_pos hdep.symm]
  · intro hdep
    simp only [receive_cw20, hp]
    rw [if_pos (Ne.symm hne)]
    simp only [hmp]
    rw [if_neg (fun h => hdep h.symm)]

/-- Witness for C4 (amended) at a concrete state: asset 1 migrated from
token 7 to token 6; a bond from token 7 is rejected with the redirect
message naming token 6. -/
theorem receive_bond_migrated_witness :
    receive_cw20 stMig 7 9 100 (some (Cw20HookMsg.Bond 1)) =
      Except.error
        ("The staking token for this asset has been migrated to " ++ Nat.repr 6) := by
  have h := receive_bond_migrated stMig 1 poolMigrated
    { index_snapshot := 0, deprecated_staking_token := 7 } 7 9 100 rfl rfl (by decide)
  exact h.1 rfl

/-- C5: the deposit-reward hook fails with "unauthorized" whenever the
delivering token contract is not the configured reward token, fails with
the mismatch error whenever the per-asset amounts do not sum to the
transferred amount, and dispatches to `deposit_reward` exactly when both
checks pass. -/
theorem receive_deposit_reward_checks (s : Storage) (sender cw20_sender : Addr)
    (amount : Nat) (rewards : List (Addr × Nat)) :
    (sender ≠ s.config.oraix_token →
      receive_cw20 s sender cw20_sender amount (some (Cw20HookMsg.DepositReward rewards)) =
        Except.error "unauthorized") ∧
    (sender = s.config.oraix_token → sumRewards rewards ≠ amount →
      receive_cw20 s sender cw20_sender amount (some (Cw20HookMsg.DepositReward rewards)) =
        Except.error "rewards amount miss matched") ∧
    (sender = s.config.oraix_token → sumRewards rewards = amount →
      receive_cw20 s sender cw20_sender amount (some (Cw20HookMsg.DepositReward rewards)) =
        Except.ok (HookAction.depositReward rewards (sumRewards rewards))) := by
  refine ⟨fun hne => ?_, fun heq hsum => ?_, fun heq hsum => ?_⟩
  · simp only [receive_cw20]
    rw [if_pos (Ne.symm hne)]
  · simp only [receive_cw20]
    rw [if_neg (fun h => (heq.symm ▸ h) rfl), if_pos hsum]
  · simp only [receive_cw20]
    rw [if_neg (fun h => (heq.symm ▸ h) rfl), if_neg (fun h => h hsum)]

/-- Witness for C5 at a concrete state: the reward token 10 deposits 100
split as 60 to asset 1 and 40 to asset 2. -/
theorem receive_deposit_reward_checks_witness :
    receive_cw20 stA 10 9 100 (some (Cw20HookMsg.DepositReward [(1, 60), (2, 40)])) =
      Except.ok (HookAction.depositReward [(1, 60), (2, 40)]
        (sumRewards [(1, 60), (2, 40)])) :=
  (receive_deposit_reward_checks stA 10 9 100 [(1, 60), (2, 40)]).2.2 rfl rfl

/-- C9: the `migrate` upgrade hook first runs `migrate_pool_infos`, then
calls `deprecate_staking_token` as the configured owner: its outcome is
independent of the actual invoker, it equals the deprecation performed on
the fixed-up storage with the owner as sender, and it succeeds on any
registered, not-yet-migrated asset (and fails exactly when that
deprecation fails). -/
theorem migrate_runs_deprecation_as_owner (s : Storage) (caller asset_token new_staking_token : Addr) :
    (∀ caller2, migrate s caller2 asset_token new_staking_token =
      migrate s caller asset_token new_staking_token) ∧
    migrate s caller asset_token new_staking_token =
      deprecate_staking_token (migrate_pool_infos s) (migrate_pool_infos s).config.owner
        asset_token new_staking_token ∧
    (∀ p, lookupPool (migrate_pool_infos s).pools asset_token = some p →
      p.migration_params = none →
      ∃ s2, migrate s caller asset_token new_staking_token = Except.ok s2) ∧
    (∀ e, deprecate_staking_token (migrate_pool_infos s) (migrate_pool_infos s).config.owner
        asset_token new_staking_token = Except.error e →
      migrate s caller asset_token new_staking_token = Except.error e) := by
  refine ⟨fun caller2 => rfl, rfl, fun p hp hmig => ?_, fun e he => he⟩
  exact ⟨_, deprecate_owner_ok (migrate_pool_infos s) asset_token new_staking_token p hp hmig⟩

/-- Witness for C9 at a concrete state: `migrate` invoked by the
arbitrary non-owner address 99 still deprecates asset 1 successfully. -/
theorem migrate_runs_deprecation_as_owner_witness :
    ∃ s2, migrate stA 99 1 8 = Except.ok s2 :=
  (migrate_runs_deprecation_as_owner stA 99 1 8).2.2.1 poolFresh rfl rfl

/-- C10: `init` stores `base_denom = ORAI_DENOM` when the message omits
it and `short_reward_bound = (7%, 40%)` when the message omits it; every
other config field — and each optional field when supplied — is taken
verbatim from the message. -/
theorem init_defaults (msg : InitMsg) :
    (msg.base_denom = none → (init msg).base_denom = ORAI_DENOM) ∧
    (∀ d, msg.base_denom = some d → (init msg).base_denom = d) ∧
    (msg.short_reward_bound = none →
      (init msg).short_reward_bound = (Decimal.percent 7, Decimal.percent 40)) ∧
    (∀ b, msg.short_reward_bound = some b → (init msg).short_reward_bound = b) ∧
    (init msg).owner = msg.owner ∧
    (init msg).oraix_token = msg.oraix_token ∧
    (init msg).mint_contract = msg.mint_contract ∧
    (init msg).oracle_contract = msg.oracle_contract ∧
    (init msg).oraiswap_factory = msg.oraiswap_factory ∧
    (init msg).premium_min_update_interval = msg.premium_min_update_interval := by
  refine ⟨fun h => ?_, fun d h => ?_, fun h => ?_, fun b h => ?_,
    rfl, rfl, rfl, rfl, rfl, rfl⟩
  · simp [init, h]
  · simp [init, h]
  · simp [init, h]
  · simp [init, h]

/-- Witness for C10 at a concrete message omitting both optional fields. -/
theorem init_defaults_witness :
    (init wInitMsg).base_denom = ORAI_DENOM ∧
    (init wInitMsg).short_reward_bound = (Decimal.percent 7, Decimal.percent 40) :=
  ⟨(init_defaults wInitMsg).1 rfl, (init_defaults wInitMsg).2.2.1 rfl⟩

end OraiswapStaking
